import Mathlib

/-!
Verification of the seat-reservation engine in `src/function_app.py`
(movie-reserve-mcp).

Python strings are embedded as `List Char` (`Str`), so that every operation
is structurally recursive and kernel-computable.  Blob reads are embedded as
`Except Unit data` inputs (`.error` models the raised exception on a failed
load), blob writes as boolean success oracles, and the two `datetime.now()`
calls in `reserve_seats` as explicit string parameters.  The JSON response of
each tool is embedded as an inductive result: `.ok` carries the payload of the
success object and `.error msg` stands for `json.dumps({"error": msg})`.
-/

/-- Embedding of Python strings: a list of characters. -/
abbrev Str := List Char

/-- Coerce a Lean string literal into the `Str` embedding. -/
def str (s : String) : Str := s.data

/-- Python ASCII whitespace as used by `str.strip()`. -/
def pySpace (c : Char) : Bool :=
  c == ' ' || c == '\t' || c == '\n' || c == '\r' || c == '\x0b' || c == '\x0c'

/-- Embedding of Python `str.strip()`. -/
def pyStrip (s : Str) : Str :=
  ((s.dropWhile pySpace).reverse.dropWhile pySpace).reverse

/-- Embedding of Python `str.split(sep)` for a one-character separator. -/
def splitOnChar (c : Char) : Str → List Str
  | [] => [[]]
  | x :: xs =>
    if x == c then [] :: splitOnChar c xs
    else
      match splitOnChar c xs with
      | [] => [[x]]
      | y :: ys => (x :: y) :: ys

/-- Digits of a decimal numeral to a number: embedding of Python `int()` on an
all-digit string (the only shape reachable after the seat-id regex check). -/
def digitsToNat (s : Str) : Nat :=
  s.foldl (fun n ch => n * 10 + (ch.toNat - '0'.toNat)) 0

/-- Embedding of Python `str(n)` for a natural number. -/
def natToStr (n : Nat) : Str := Nat.toDigits 10 n

/-- Embedding of `validate_seat_id_format` (regex `^[A-Z]\d+$`, line 162). -/
def validateSeatIdFormat : Str → Bool
  | [] => false
  | c :: rest => ('A' ≤ c && c ≤ 'Z') && !rest.isEmpty && rest.all Char.isDigit

/-- Embedding of `validate_date_format` (regex `^\d{4}-\d{2}-\d{2}$`, line 157). -/
def validateDateFormat : Str → Bool
  | [a, b, c, d, e, f, g, h, i, j] =>
    a.isDigit && b.isDigit && c.isDigit && d.isDigit && e == '-' &&
    f.isDigit && g.isDigit && h == '-' && i.isDigit && j.isDigit
  | _ => false

/-- A missing (`None`) or empty tool argument is falsy in Python (`if not x`). -/
def strFalsy : Option Str → Bool
  | none => true
  | some s => s.isEmpty

/-- Embedding of `", ".join(seat_ids)` (line 722). -/
def joinComma : List Str → Str
  | [] => []
  | [s] => s
  | s :: rest => s ++ str ", " ++ joinComma rest

/-- Row record of the `available_seats` array of one schedule's seat map. -/
structure AvailRow where
  row : Str
  available_numbers : List Nat
deriving DecidableEq

/-- Row record of the `occupied_seats` array of one schedule's seat map. -/
structure OccRow where
  row : Str
  occupied_numbers : List Nat
deriving DecidableEq

/-- One record of `movies/seat_availability.json`: a schedule's seat map. -/
structure SeatInfo where
  schedule_id : Str
  available_seats : List AvailRow
  occupied_seats : List OccRow
deriving DecidableEq

/-- One record of `movies/schedules.json`. -/
structure Schedule where
  schedule_id : Str
  movie_id : Str
  date : Str
  start_time : Str
  end_time : Str
  theater_id : Str
deriving DecidableEq

/-- One record of `movies/movies.json`. -/
structure Movie where
  movie_id : Str
  title : Str
  genre : Str
deriving DecidableEq

/-- One record of the reservation log `movies/reservations.jsonl`. -/
structure Reservation where
  reservation_id : Str
  schedule_id : Str
  seat_ids : List Str
  reservation_time : Str
  status : Str
deriving DecidableEq

/-- Embedding of `generate_reservation_id` (lines 167-171): `ts` is the
second-granularity `datetime.now().strftime("%Y%m%d%H%M%S")` string. -/
def generateReservationId (ts : Str) : Str := str "RES" ++ ts

/-- Parsed arguments of the `reserve_seats` tool call. -/
structure ReserveArgs where
  schedule_id : Option Str
  seat_ids : Option Str
deriving DecidableEq

/-- The JSON body returned by `reserve_seats`: success payload or error object. -/
inductive RResult where
  | ok (resv : Reservation) (sched : Schedule) (movie : Movie) (message : Str)
  | error (msg : Str)
deriving DecidableEq

/-- Whether an `RResult` is the success payload. -/
def RResult.isOk : RResult → Bool
  | .ok _ _ _ _ => true
  | .error _ => false

/-- The `reservation_id` field of a successful response, if any. -/
def RResult.reservationId : RResult → Option Str
  | .ok resv _ _ _ => some resv.reservation_id
  | .error _ => none

/-- Result of one `reserve_seats` call: the returned JSON body plus the blob
writes it committed (`none` = the blob was never written by this call). -/
structure ReserveOutcome where
  response : RResult
  seatBlob : Option (List SeatInfo)
  resBlob : Option (List Reservation)
deriving DecidableEq

/-- Embedding of the seat-id parse at line 573:
`[s.strip() for s in seat_ids_str.split(",") if s.strip()]`. -/
def parseSeatIds (seatIdsStr : Str) : List Str :=
  ((splitOnChar ',' seatIdsStr).map pyStrip).filter (fun s => !s.isEmpty)

/-- Row letter of a seat id (`seat_id[0]`, line 647). -/
def rowOf (s : Str) : Str := s.take 1

/-- Seat number of a seat id (`int(seat_id[1:])`, line 648). -/
def numOf (s : Str) : Nat := digitsToNat (s.drop 1)

/-- The strings of the `available_seats` membership set built at lines 634-637:
`f"{row['row']}{seat_num}"` for every available number of every row. -/
def availList (si : SeatInfo) : List Str :=
  si.available_seats.flatMap (fun rd => rd.available_numbers.map (fun n => rd.row ++ natToStr n))

/-- The per-row value of the `seats_to_move` dict built at lines 645-651: the
requested numbers whose seat id names row `r`, in request order. -/
def movedNums (seat_ids : List Str) (r : Str) : List Nat :=
  seat_ids.filterMap (fun s => if rowOf s == r then some (numOf s) else none)

/-- Embedding of the in-memory seat-map mutation of lines 653-668: remove every
moved number from its row's `available_numbers`, extend and re-sort the row's
`occupied_numbers`.  Rows whose label is not a key of `seats_to_move` are left
unchanged by the Python loops, hence the `any` guards. -/
def applySeatMove (si : SeatInfo) (seat_ids : List Str) : SeatInfo :=
  { si with
    available_seats := si.available_seats.map (fun rd =>
      if seat_ids.any (fun s => rowOf s == rd.row) then
        { rd with available_numbers :=
            rd.available_numbers.filter (fun n => !((movedNums seat_ids rd.row).contains n)) }
      else rd),
    occupied_seats := si.occupied_seats.map (fun rd =>
      if seat_ids.any (fun s => rowOf s == rd.row) then
        { rd with occupied_numbers :=
            (rd.occupied_numbers ++ movedNums seat_ids rd.row).insertionSort (· ≤ ·) }
      else rd) }

/-- Embedding of lines 682-687: the existing reservation list, or `[]` when
loading the reservations blob raised (missing file tolerated). -/
def existingReservations (reservationsLoad : Except Unit (List Reservation)) :
    List Reservation :=
  match reservationsLoad with
  | .ok l => l
  | .error _ => []

/-- Embedding of the success message built at line 722. -/
def successMessage (seat_ids : List Str) : Str :=
  str "Successfully reserved " ++ natToStr seat_ids.length ++
    str " seat(s): " ++ joinComma seat_ids ++ str "."

/-- Embedding of the indexed seat-map lookup of lines 622-628 (first record
whose `schedule_id` matches, together with its index). -/
def findSeatInfo : List SeatInfo → Str → Nat → Option (Nat × SeatInfo)
  | [], _, _ => none
  | s :: rest, sid, i =>
    if s.schedule_id == sid then some (i, s) else findSeatInfo rest sid (i + 1)

/-- Embedding of `reserve_seats` (lines 520-729).  `ctx` is the outcome of
`json.loads(context)` plus argument extraction (`.error` = the parse raised,
reaching the outer `except`); the four loads model the blob input streams; the
two booleans model whether `reservation_output.set` and `seat_output.set`
succeed (in the source the reservation log is written first); `ts` and `iso`
are the two `datetime.now()` readings. -/
def reserveSeats (ctx : Except Unit ReserveArgs)
    (schedulesLoad : Except Unit (List Schedule))
    (moviesLoad : Except Unit (List Movie))
    (seatLoad : Except Unit (List SeatInfo))
    (reservationsLoad : Except Unit (List Reservation))
    (resWriteOk seatWriteOk : Bool) (ts iso : Str) : ReserveOutcome :=
  match ctx with
  | .error _ => ⟨.error (str "Internal server error."), none, none⟩
  | .ok args =>
    if strFalsy args.schedule_id then ⟨.error (str "schedule_id is required."), none, none⟩
    else if strFalsy (some (args.seat_ids.getD [])) then
      ⟨.error (str "seat_ids is required."), none, none⟩
    else if 20 < (args.schedule_id.getD []).length then
      ⟨.error (str "Schedule ID too long. Maximum 20 characters."), none, none⟩
    else if 100 < (args.seat_ids.getD []).length then
      ⟨.error (str "Seat IDs string too long. Maximum 100 characters."), none, none⟩
    else
      let seat_ids := parseSeatIds (args.seat_ids.getD [])
      if seat_ids.isEmpty then ⟨.error (str "No valid seat IDs provided."), none, none⟩
      else
        match seat_ids.find? (fun s => !validateSeatIdFormat s) with
        | some s =>
          ⟨.error (str "Invalid seat ID format: " ++ s ++
            str ". Use format like \x27A1\x27, \x27B2\x27, etc."), none, none⟩
        | none =>
          match schedulesLoad with
          | .error _ => ⟨.error (str "Failed to load schedule data."), none, none⟩
          | .ok schedules =>
            match schedules.find? (fun s => s.schedule_id == args.schedule_id.getD []) with
            | none => ⟨.error (str "Schedule not found."), none, none⟩
            | some schedule =>
              match moviesLoad with
              | .error _ => ⟨.error (str "Failed to load movie data."), none, none⟩
              | .ok movies =>
                match movies.find? (fun m => m.movie_id == schedule.movie_id) with
                | none => ⟨.error (str "Movie not found."), none, none⟩
                | some movie =>
                  match seatLoad with
                  | .error _ =>
                    ⟨.error (str "Failed to load seat availability data."), none, none⟩
                  | .ok seat_data =>
                    match findSeatInfo seat_data (args.schedule_id.getD []) 0 with
                    | none => ⟨.error (str "Seat data not available."), none, none⟩
                    | some (idx, seat_info) =>
                      match seat_ids.find? (fun s => !((availList seat_info).contains s)) with
                      | some s =>
                        ⟨.error (str "Seat " ++ s ++ str " is already occupied."), none, none⟩
                      | none =>
                        let reservation : Reservation :=
                          ⟨generateReservationId ts, args.schedule_id.getD [], seat_ids,
                            iso, str "confirmed"⟩
                        let newLog := existingReservations reservationsLoad ++ [reservation]
                        if resWriteOk then
                          if seatWriteOk then
                            ⟨.ok reservation schedule movie (successMessage seat_ids),
                              some (seat_data.set idx (applySeatMove seat_info seat_ids)),
                              some newLog⟩
                          else
                            ⟨.error (str "Failed to update seat availability."), none,
                              some newLog⟩
                        else ⟨.error (str "Failed to save reservation data."), none, none⟩

/-- Embedding of `load_jsonl_from_blob` (lines 143-154) on the list of lines of
`content.strip().split('\n')`: skip blank lines, parse each remaining line with
`json.loads` (the external parser, passed in as `parse`); a line that fails to
parse raises, aborting the whole read (`.error`). -/
def loadJsonlLines (parse : Str → Option α) : List Str → Except Unit (List α)
  | [] => .ok []
  | line :: rest =>
    if (pyStrip line).isEmpty then loadJsonlLines parse rest
    else
      match parse (pyStrip line) with
      | none => .error ()
      | some r =>
        match loadJsonlLines parse rest with
        | .error _ => .error ()
        | .ok rs => .ok (r :: rs)

/-- Embedding of `load_jsonl_from_blob` on the whole blob content. -/
def loadJsonlFromBlob (parse : Str → Option α) (content : Str) : Except Unit (List α) :=
  loadJsonlLines parse (splitOnChar '\n' (pyStrip content))

/-- Lexicographic code-point comparison of Python strings (`<`). -/
def strLt : Str → Str → Bool
  | [], [] => false
  | [], _ :: _ => true
  | _ :: _, [] => false
  | a :: as, b :: bs => a < b || (a == b && strLt as bs)

/-- Python string `<=`, the sort key order used by `sorted(..., key=row)`. -/
def strLe (a b : Str) : Bool := !strLt b a

/-- Embedding of Python `needle.isPrefixOf`-style check used by `containsSub`. -/
def leadsWith : Str → Str → Bool
  | _, [] => true
  | [], _ :: _ => false
  | a :: as, b :: bs => a == b && leadsWith as bs

/-- Embedding of Python `needle in hay` substring membership. -/
def containsSub : Str → Str → Bool
  | [], needle => needle.isEmpty
  | h :: t, needle => leadsWith (h :: t) needle || containsSub t needle

/-- Embedding of Python `str.lower()` (ASCII titles). -/
def strLower (s : Str) : Str := s.map Char.toLower

/-- Parsed arguments of the `get_movie_list` tool call. -/
structure MovieListArgs where
  date : Option Str
  search_query : Option Str
  genre : Option Str
deriving DecidableEq

/-- The JSON body returned by `get_movie_list`. -/
inductive MovieListResult where
  | ok (movies : List Movie)
  | error (msg : Str)
deriving DecidableEq

/-- Embedding of `get_movie_list` (lines 183-254). -/
def getMovieList (ctx : Except Unit MovieListArgs)
    (moviesLoad : Except Unit (List Movie))
    (schedulesLoad : Except Unit (List Schedule)) : MovieListResult :=
  match ctx with
  | .error _ => .error (str "Internal server error.")
  | .ok args =>
    if !strFalsy args.date && !validateDateFormat (args.date.getD []) then
      .error (str "Invalid date format. Use YYYY-MM-DD.")
    else if !strFalsy args.search_query && 100 < (args.search_query.getD []).length then
      .error (str "Search query too long. Maximum 100 characters.")
    else if !strFalsy args.genre && 50 < (args.genre.getD []).length then
      .error (str "Genre filter too long. Maximum 50 characters.")
    else
      match moviesLoad with
      | .error _ => .error (str "Failed to load movie data.")
      | .ok movies0 =>
        match (if strFalsy args.date then some movies0
               else match schedulesLoad with
                    | .error _ => none
                    | .ok schedules => some (movies0.filter (fun m =>
                        schedules.any (fun sc =>
                          sc.date == args.date.getD [] && sc.movie_id == m.movie_id)))) with
        | none => .error (str "Failed to load schedule data.")
        | some movies1 =>
          let movies2 :=
            if strFalsy args.search_query then movies1
            else movies1.filter (fun m =>
              containsSub (strLower m.title) (strLower (args.search_query.getD [])))
          let movies3 :=
            if strFalsy args.genre then movies2
            else movies2.filter (fun m => m.genre == args.genre.getD [])
          .ok movies3

/-- Parsed arguments of the `get_show_schedule` tool call. -/
structure ShowScheduleArgs where
  movie_id : Option Str
  movie_title : Option Str
  date : Option Str
deriving DecidableEq

/-- One entry of the enhanced schedule list returned by `get_show_schedule`. -/
structure EnhancedSchedule where
  schedule_id : Str
  movie_id : Str
  date : Str
  start_time : Str
  end_time : Str
  theater_id : Str
  movie_title : Str
  available_seats_count : Nat
  total_seats_count : Nat
deriving DecidableEq

/-- The JSON body returned by `get_show_schedule`. -/
inductive ShowScheduleResult where
  | ok (schedules : List EnhancedSchedule)
  | error (msg : Str)
deriving DecidableEq

/-- Embedding of the `movie_dict` built at line 316: a Python dict
comprehension keeps the LAST movie for a duplicated `movie_id`. -/
def movieDictGet (movies : List Movie) (mid : Str) : Option Str :=
  movies.foldl (fun acc m => if m.movie_id == mid then some m.title else acc) none

/-- Seat-count pair computed at lines 351-360 for one schedule: counts of the
first matching seat record, `(0, 0)` when none matches. -/
def seatCounts (seat_data : List SeatInfo) (sid : Str) : Nat × Nat :=
  match seat_data.find? (fun s => s.schedule_id == sid) with
  | none => (0, 0)
  | some si =>
    let avail := (si.available_seats.map (fun r => r.available_numbers.length)).sum
    let occ := (si.occupied_seats.map (fun r => r.occupied_numbers.length)).sum
    (avail, avail + occ)

/-- Embedding of `get_show_schedule` (lines 266-384). -/
def getShowSchedule (ctx : Except Unit ShowScheduleArgs)
    (moviesLoad : Except Unit (List Movie))
    (schedulesLoad : Except Unit (List Schedule))
    (seatLoad : Except Unit (List SeatInfo)) : ShowScheduleResult :=
  match ctx with
  | .error _ => .error (str "Internal server error.")
  | .ok args =>
    if strFalsy args.date then .error (str "Date parameter is required.")
    else if !validateDateFormat (args.date.getD []) then
      .error (str "Invalid date format. Use YYYY-MM-DD.")
    else if !strFalsy args.movie_id && 20 < (args.movie_id.getD []).length then
      .error (str "Movie ID too long. Maximum 20 characters.")
    else if !strFalsy args.movie_title && 100 < (args.movie_title.getD []).length then
      .error (str "Movie title too long. Maximum 100 characters.")
    else
      match moviesLoad with
      | .error _ => .error (str "Failed to load movie data.")
      | .ok movies =>
        match (if !strFalsy args.movie_title && strFalsy args.movie_id then
                 match movies.find? (fun m => m.title == args.movie_title.getD []) with
                 | none => none
                 | some m => if m.movie_id.isEmpty then none else some (some m.movie_id)
               else some args.movie_id) with
        | none => .error (str "Movie not found.")
        | some effMid =>
          match schedulesLoad with
          | .error _ => .error (str "Failed to load schedule data.")
          | .ok schedules =>
            let filtered := schedules.filter (fun sc =>
              sc.date == args.date.getD [] &&
                (strFalsy effMid || sc.movie_id == effMid.getD []))
            match seatLoad with
            | .error _ => .error (str "Failed to load seat availability data.")
            | .ok seat_data =>
              let enhanced := filtered.map (fun sc =>
                let counts := seatCounts seat_data sc.schedule_id
                { schedule_id := sc.schedule_id, movie_id := sc.movie_id,
                  date := sc.date, start_time := sc.start_time, end_time := sc.end_time,
                  theater_id := sc.theater_id,
                  movie_title := (movieDictGet movies sc.movie_id).getD (str "Unknown"),
                  available_seats_count := counts.1,
                  total_seats_count := counts.2 : EnhancedSchedule })
              .ok (enhanced.insertionSort (fun a b => strLe a.start_time b.start_time = true))

/-- The JSON body returned by `get_seat_availability`: the schedule info block
plus the sorted `available_seats` and `occupied_seats` arrays. -/
inductive SeatAvailResult where
  | ok (sched : Schedule) (movie : Movie) (available : List AvailRow) (occupied : List OccRow)
  | error (msg : Str)
deriving DecidableEq

/-- Embedding of `get_seat_availability` (lines 394-509). -/
def getSeatAvailability (ctx : Except Unit (Option Str))
    (schedulesLoad : Except Unit (List Schedule))
    (moviesLoad : Except Unit (List Movie))
    (seatLoad : Except Unit (List SeatInfo)) : SeatAvailResult :=
  match ctx with
  | .error _ => .error (str "Internal server error.")
  | .ok sidOpt =>
    if strFalsy sidOpt then .error (str "schedule_id is required.")
    else if 20 < (sidOpt.getD []).length then
      .error (str "Schedule ID too long. Maximum 20 characters.")
    else
      match schedulesLoad with
      | .error _ => .error (str "Failed to load schedule data.")
      | .ok schedules =>
        match schedules.find? (fun s => s.schedule_id == sidOpt.getD []) with
        | none => .error (str "Schedule not found.")
        | some schedule =>
          match moviesLoad with
          | .error _ => .error (str "Failed to load movie data.")
          | .ok movies =>
            match movies.find? (fun m => m.movie_id == schedule.movie_id) with
            | none => .error (str "Movie not found.")
            | some movie =>
              match seatLoad with
              | .error _ => .error (str "Failed to load seat availability data.")
              | .ok seat_data =>
                match seat_data.find? (fun s => s.schedule_id == sidOpt.getD []) with
                | none => .error (str "Seat data not available.")
                | some seat_info =>
                  .ok schedule movie
                    ((seat_info.available_seats.insertionSort
                        (fun a b => strLe a.row b.row = true)).map (fun rd =>
                      { rd with available_numbers :=
                          rd.available_numbers.insertionSort (· ≤ ·) }))
                    ((seat_info.occupied_seats.insertionSort
                        (fun a b => strLe a.row b.row = true)).map (fun rd =>
                      { rd with occupied_numbers :=
                          rd.occupied_numbers.insertionSort (· ≤ ·) }))

/-- One entry of the `seat_details` array of `get_reservation_details`:
seat id, row, number. -/
structure SeatDetail where
  seat_id : Str
  row : Str
  number : Nat
deriving DecidableEq

/-- Embedding of the per-seat parse at lines 828-835: `seat_id[0]` raises on an
empty id, `int(seat_id[1:])` raises unless the tail is a decimal numeral; a
raise propagates to the outer handler (`.error`). -/
def parseSeatDetail (s : Str) : Except Unit SeatDetail :=
  match s with
  | [] => .error ()
  | c :: rest =>
    if rest.isEmpty || !rest.all Char.isDigit then .error ()
    else .ok ⟨c :: rest, [c], digitsToNat rest⟩

/-- The seat-detail list of a reservation (lines 827-835), failing as the
Python loop does on the first unparsable seat id. -/
def seatDetailsOf : List Str → Except Unit (List SeatDetail)
  | [] => .ok []
  | s :: rest =>
    match parseSeatDetail s with
    | .error _ => .error ()
    | .ok d =>
      match seatDetailsOf rest with
      | .error _ => .error ()
      | .ok ds => .ok (d :: ds)

/-- Sort order of `seat_details.sort(key=lambda x: (x["row"], x["number"]))`. -/
def seatDetailLe (a b : SeatDetail) : Prop :=
  (strLt a.row b.row || (a.row == b.row && a.number ≤ b.number)) = true

instance : DecidableRel seatDetailLe := fun a b => by
  unfold seatDetailLe
  infer_instance

/-- The JSON body returned by `get_reservation_details`. -/
inductive DetailsResult where
  | ok (resv : Reservation) (sched : Schedule) (movie : Movie) (seat_details : List SeatDetail)
  | error (msg : Str)
deriving DecidableEq

/-- Embedding of `get_reservation_details` (lines 739-864). -/
def getReservationDetails (ctx : Except Unit (Option Str))
    (reservationsLoad : Except Unit (List Reservation))
    (schedulesLoad : Except Unit (List Schedule))
    (moviesLoad : Except Unit (List Movie)) : DetailsResult :=
  match ctx with
  | .error _ => .error (str "Internal server error.")
  | .ok ridOpt =>
    if strFalsy ridOpt then .error (str "reservation_id is required.")
    else if 30 < (ridOpt.getD []).length then
      .error (str "Reservation ID too long. Maximum 30 characters.")
    else
      match reservationsLoad with
      | .error _ => .error (str "Failed to load reservation data.")
      | .ok reservations =>
        match reservations.find? (fun r => r.reservation_id == ridOpt.getD []) with
        | none => .error (str "Reservation not found.")
        | some reservation =>
          match schedulesLoad with
          | .error _ => .error (str "Failed to load schedule data.")
          | .ok schedules =>
            match schedules.find? (fun s => s.schedule_id == reservation.schedule_id) with
            | none => .error (str "Schedule not found.")
            | some schedule =>
              match moviesLoad with
              | .error _ => .error (str "Failed to load movie data.")
              | .ok movies =>
                match movies.find? (fun m => m.movie_id == schedule.movie_id) with
                | none => .error (str "Movie not found.")
                | some movie =>
                  match seatDetailsOf reservation.seat_ids with
                  | .error _ => .error (str "Internal server error.")
                  | .ok ds => .ok reservation schedule movie (ds.insertionSort seatDetailLe)

/-- Multiset of available numbers a seat map records for row label `r` (all
`available_seats` entries carrying that label, in order). -/
def availNums (si : SeatInfo) (r : Str) : List Nat :=
  (si.available_seats.filter (fun rd => rd.row == r)).flatMap (fun rd => rd.available_numbers)

/-- Multiset of occupied numbers a seat map records for row label `r`. -/
def occNums (si : SeatInfo) (r : Str) : List Nat :=
  (si.occupied_seats.filter (fun rd => rd.row == r)).flatMap (fun rd => rd.occupied_numbers)

/-- The row partition of `si2` at row `r` is a legal successor of the one of
`si1`: both sides duplicate-free, disjoint, and together a permutation of the
seats `si1` held at `r` (seats moved, never created, destroyed or duplicated). -/
def RowPartitionStep (si1 si2 : SeatInfo) (r : Str) : Prop :=
  (availNums si2 r).Nodup ∧ (occNums si2 r).Nodup ∧
    (∀ n ∈ availNums si2 r, n ∉ occNums si2 r) ∧
    (availNums si2 r ++ occNums si2 r).Perm (availNums si1 r ++ occNums si1 r)

/-- The validation and lookup stages of `reserve_seats` that a request passes
before reaching the availability check (lines 550-631). -/
structure HappyReserveRequest (sid sstr : Str) (schedules : List Schedule)
    (movies : List Movie) (seatData : List SeatInfo) (sched : Schedule)
    (movie : Movie) (idx : Nat) (si : SeatInfo) : Prop where
  sid_ne : sid ≠ []
  sstr_ne : sstr ≠ []
  sid_len : sid.length ≤ 20
  sstr_len : sstr.length ≤ 100
  seats_ne : parseSeatIds sstr ≠ []
  seats_fmt : (parseSeatIds sstr).find? (fun s => !validateSeatIdFormat s) = none
  sched_found : schedules.find? (fun s => s.schedule_id == sid) = some sched
  movie_found : movies.find? (fun m => m.movie_id == sched.movie_id) = some movie
  seat_found : findSeatInfo seatData sid 0 = some (idx, si)

theorem reserveSeats_eval_success
    (sid sstr : Str) (schedules : List Schedule) (movies : List Movie)
    (seatData : List SeatInfo) (sched : Schedule) (movie : Movie) (idx : Nat)
    (si : SeatInfo) (resLoad : Except Unit (List Reservation)) (ts iso : Str)
    (h : HappyReserveRequest sid sstr schedules movies seatData sched movie idx si)
    (havail : (parseSeatIds sstr).find? (fun s => !((availList si).contains s)) = none) :
    reserveSeats (.ok ⟨some sid, some sstr⟩) (.ok schedules) (.ok movies)
        (.ok seatData) resLoad true true ts iso =
      ⟨.ok ⟨generateReservationId ts, sid, parseSeatIds sstr, iso, str "confirmed"⟩
          sched movie (successMessage (parseSeatIds sstr)),
        some (seatData.set idx (applySeatMove si (parseSeatIds sstr))),
        some (existingReservations resLoad ++
          [⟨generateReservationId ts, sid, parseSeatIds sstr, iso, str "confirmed"⟩])⟩ := by
  obtain ⟨h1, h2, h3, h4, h5, h6, h7, h8, h9⟩ := h
  have h3' : ¬ 20 < sid.length := by omega
  have h4' : ¬ 100 < sstr.length := by omega
  unfold reserveSeats
  simp only [Option.getD_some, strFalsy, List.isEmpty_iff, h1, h2, h3', h4', h5, h6, h7, h8,
    h9, havail, if_false, if_true, ite_false, ite_true]

theorem reserveSeats_eval_unavailable
    (sid sstr : Str) (schedules : List Schedule) (movies : List Movie)
    (seatData : List SeatInfo) (sched : Schedule) (movie : Movie) (idx : Nat)
    (si : SeatInfo) (resLoad : Except Unit (List Reservation))
    (rOk sOk : Bool) (ts iso s0 : Str)
    (h : HappyReserveRequest sid sstr schedules movies seatData sched movie idx si)
    (havail : (parseSeatIds sstr).find? (fun s => !((availList si).contains s)) = some s0) :
    reserveSeats (.ok ⟨some sid, some sstr⟩) (.ok schedules) (.ok movies)
        (.ok seatData) resLoad rOk sOk ts iso =
      ⟨.error (str "Seat " ++ s0 ++ str " is already occupied."), none, none⟩ := by
  obtain ⟨h1, h2, h3, h4, h5, h6, h7, h8, h9⟩ := h
  have h3' : ¬ 20 < sid.length := by omega
  have h4' : ¬ 100 < sstr.length := by omega
  unfold reserveSeats
  simp only [Option.getD_some, strFalsy, List.isEmpty_iff, h1, h2, h3', h4', h5, h6, h7, h8,
    h9, havail, if_false, if_true, ite_false, ite_true]

theorem movedNums_eq_nil (L : List Str) (r : Str)
    (h : L.any (fun s => rowOf s == r) = false) : movedNums L r = [] := by
  induction L with
  | nil => rfl
  | cons s t ih =>
    simp only [List.any_cons, Bool.or_eq_false_iff] at h
    simp only [movedNums, List.filterMap_cons, h.1]
    exact ih h.2

theorem availRows_move_flatMap (L : List Str) (r : Str) : ∀ l : List AvailRow,
    ((l.map (fun rd =>
        if L.any (fun s => rowOf s == rd.row) then
          { rd with available_numbers :=
              rd.available_numbers.filter (fun n => !((movedNums L rd.row).contains n)) }
        else rd)).filter (fun rd => rd.row == r)).flatMap (fun rd => rd.available_numbers)
    = ((l.filter (fun rd => rd.row == r)).flatMap (fun rd => rd.available_numbers)).filter
        (fun n => !((movedNums L r).contains n)) := by
  intro l
  induction l with
  | nil => rfl
  | cons rd t ih =>
    simp only [List.map_cons]
    by_cases hg : L.any (fun s => rowOf s == rd.row) = true
    case pos =>
      rw [if_pos hg]
      by_cases hr : rd.row = r
      case pos =>
        subst hr
        rw [List.filter_cons, List.filter_cons, if_pos (by simp), if_pos (by simp)]
        simp only [List.flatMap_cons, List.filter_append, ih]
      case neg =>
        rw [List.filter_cons, List.filter_cons, if_neg (by simp [hr]), if_neg (by simp [hr])]
        exact ih
    case neg =>
      rw [if_neg hg]
      have hmv : movedNums L rd.row = [] := movedNums_eq_nil _ _ (by simpa using hg)
      by_cases hr : rd.row = r
      case pos =>
        subst hr
        rw [List.filter_cons, List.filter_cons, if_pos (by simp), if_pos (by simp)]
        simp only [List.flatMap_cons, List.filter_append, ih]
        rw [hmv]
        simp
      case neg =>
        rw [List.filter_cons, List.filter_cons, if_neg (by simp [hr]), if_neg (by simp [hr])]
        exact ih

theorem availNums_applySeatMove (si : SeatInfo) (L : List Str) (r : Str) :
    availNums (applySeatMove si L) r =
      (availNums si r).filter (fun n => !((movedNums L r).contains n)) :=
  availRows_move_flatMap L r si.available_seats

theorem occRows_move_skip (L : List Str) (r : Str)
    (hg : L.any (fun s => rowOf s == r) = false) : ∀ l : List OccRow,
    ((l.map (fun rd =>
        if L.any (fun s => rowOf s == rd.row) then
          { rd with occupied_numbers :=
              (rd.occupied_numbers ++ movedNums L rd.row).insertionSort (· ≤ ·) }
        else rd)).filter (fun rd => rd.row == r)).flatMap (fun rd => rd.occupied_numbers)
    = (l.filter (fun rd => rd.row == r)).flatMap (fun rd => rd.occupied_numbers) := by
  intro l
  induction l with
  | nil => rfl
  | cons rd t ih =>
    simp only [List.map_cons]
    by_cases hr : rd.row = r
    case pos =>
      subst hr
      rw [if_neg (by simp [hg]), List.filter_cons, List.filter_cons,
        if_pos (by simp), if_pos (by simp)]
      simp only [List.flatMap_cons, ih]
    case neg =>
      by_cases hgl : L.any (fun s => rowOf s == rd.row) = true
      case pos =>
        rw [if_pos hgl, List.filter_cons, List.filter_cons,
          if_neg (by simp [hr]), if_neg (by simp [hr])]
        exact ih
      case neg =>
        rw [if_neg hgl, List.filter_cons, List.filter_cons,
          if_neg (by simp [hr]), if_neg (by simp [hr])]
        exact ih

theorem occNums_applySeatMove_skip (si : SeatInfo) (L : List Str) (r : Str)
    (hg : L.any (fun s => rowOf s == r) = false) :
    occNums (applySeatMove si L) r = occNums si r :=
  occRows_move_skip L r hg si.occupied_seats

theorem filter_row_singleton {β : Type} (f : β → Str) (r : Str) :
    ∀ (l : List β), (l.map f).Nodup → ∀ b ∈ l, f b = r →
      l.filter (fun x => f x == r) = [b] := by
  intro l
  induction l with
  | nil => intro _ b hb; exact absurd hb (List.not_mem_nil b)
  | cons a t ih =>
    intro hnd b hb hbr
    simp only [List.map_cons, List.nodup_cons] at hnd
    rcases List.mem_cons.mp hb with hb | hb
    · subst hb
      rw [List.filter_cons, if_pos (by simp [hbr])]
      have htail : t.filter (fun x => f x == r) = [] := by
        rw [List.filter_eq_nil_iff]
        intro x hx
        simp only [beq_iff_eq]
        intro hxr
        exact hnd.1 (by
          rw [← hbr] at hxr
          exact hxr ▸ List.mem_map_of_mem f hx)
      rw [htail]
    · have har : f a ≠ r := by
        intro har
        exact hnd.1 (by
          rw [har, ← hbr]
          exact List.mem_map_of_mem f hb)
      rw [List.filter_cons, if_neg (by simp [har])]
      exact ih hnd.2 b hb hbr

theorem occNums_single (si : SeatInfo) (r : Str)
    (hnd : (si.occupied_seats.map (fun od => od.row)).Nodup)
    (od : OccRow) (hod : od ∈ si.occupied_seats) (hrow : od.row = r) :
    occNums si r = od.occupied_numbers := by
  unfold occNums
  rw [filter_row_singleton (fun od => od.row) r si.occupied_seats hnd od hod hrow]
  simp

theorem occRowPres (L : List Str) (x : OccRow) :
    ((fun rd =>
        if L.any (fun s => rowOf s == rd.row) then
          { rd with occupied_numbers :=
              (rd.occupied_numbers ++ movedNums L rd.row).insertionSort (· ≤ ·) }
        else rd) x).row = x.row := by
  by_cases h : L.any (fun s => rowOf s == x.row) = true
  · simp [h]
  · simp [h]

theorem occRows_move_hit (L : List Str) (r : Str)
    (hg : L.any (fun s => rowOf s == r) = true) :
    ∀ l : List OccRow, (l.map (fun od => od.row)).Nodup →
      ∀ od ∈ l, od.row = r →
      ((l.map (fun rd =>
          if L.any (fun s => rowOf s == rd.row) then
            { rd with occupied_numbers :=
                (rd.occupied_numbers ++ movedNums L rd.row).insertionSort (· ≤ ·) }
          else rd)).filter (fun rd => rd.row == r)).flatMap (fun rd => rd.occupied_numbers)
        = (od.occupied_numbers ++ movedNums L r).insertionSort (· ≤ ·) := by
  intro l
  induction l with
  | nil =>
    intro _ od hod
    exact absurd hod (List.not_mem_nil od)
  | cons a t ih =>
    intro hnd od hod hrow
    simp only [List.map_cons, List.nodup_cons] at hnd
    rcases List.mem_cons.mp hod with hb | hb
    · subst hb
      rw [List.map_cons, List.filter_cons, if_pos (by rw [occRowPres]; simp [hrow])]
      have htail : ((t.map (fun rd =>
          if L.any (fun s => rowOf s == rd.row) then
            { rd with occupied_numbers :=
                (rd.occupied_numbers ++ movedNums L rd.row).insertionSort (· ≤ ·) }
          else rd)).filter (fun rd => rd.row == r)) = [] := by
        rw [List.filter_eq_nil_iff]
        intro x hx
        rcases List.mem_map.mp hx with ⟨y, hy, hxy⟩
        simp only [beq_iff_eq]
        intro hxr
        apply hnd.1
        rw [hrow, ← hxr, ← hxy, occRowPres]
        exact List.mem_map_of_mem _ hy
      rw [htail]
      simp only [List.flatMap_cons, List.flatMap_nil, List.append_nil]
      rw [if_pos (by rw [hrow]; exact hg), hrow]
    · have har : a.row ≠ r := by
        intro har
        apply hnd.1
        rw [har, ← hrow]
        exact List.mem_map_of_mem _ hb
      rw [List.map_cons, List.filter_cons, if_neg (by rw [occRowPres]; simp [har])]
      exact ih hnd.2 od hb hrow

theorem occNums_applySeatMove_hit (si : SeatInfo) (L : List Str) (r : Str)
    (hg : L.any (fun s => rowOf s == r) = true)
    (hnd : (si.occupied_seats.map (fun od => od.row)).Nodup)
    (od : OccRow) (hod : od ∈ si.occupied_seats) (hrow : od.row = r) :
    occNums (applySeatMove si L) r =
      (od.occupied_numbers ++ movedNums L r).insertionSort (· ≤ ·) :=
  occRows_move_hit L r hg si.occupied_seats hnd od hod hrow

theorem movedNums_nodup (L : List Str) (r : Str)
    (hPairs : (L.map (fun s => (rowOf s, numOf s))).Nodup) :
    (movedNums L r).Nodup := by
  induction L with
  | nil => exact List.nodup_nil
  | cons s t ih =>
    simp only [List.map_cons, List.nodup_cons] at hPairs
    by_cases hrow : rowOf s == r
    case pos =>
      rw [movedNums, List.filterMap_cons, if_pos hrow]
      rw [List.nodup_cons]
      constructor
      · intro hmem
        rcases List.mem_filterMap.mp hmem with ⟨s2, hs2, heq⟩
        by_cases hrow2 : rowOf s2 == r
        case pos =>
          rw [if_pos hrow2] at heq
          have h1 : rowOf s = r := eq_of_beq hrow
          have h2 : rowOf s2 = r := eq_of_beq hrow2
          have : (rowOf s2, numOf s2) = (rowOf s, numOf s) := by
            rw [h1, h2, Option.some_inj.mp heq]
          exact hPairs.1 (this ▸ List.mem_map_of_mem (fun s => (rowOf s, numOf s)) hs2)
        case neg =>
          rw [if_neg hrow2] at heq
          exact Option.noConfusion heq
      · exact ih hPairs.2
    case neg =>
      rw [movedNums, List.filterMap_cons, if_neg hrow]
      exact ih hPairs.2

theorem movedNums_sub (si : SeatInfo) (L : List Str) (r : Str)
    (hsub : ∀ s ∈ L, numOf s ∈ availNums si (rowOf s)) :
    ∀ n ∈ movedNums L r, n ∈ availNums si r := by
  intro n hn
  rcases List.mem_filterMap.mp hn with ⟨s, hs, heq⟩
  by_cases hrow : rowOf s == r
  case pos =>
    rw [if_pos hrow] at heq
    rw [← Option.some_inj.mp heq, ← eq_of_beq hrow]
    exact hsub s hs
  case neg =>
    rw [if_neg hrow] at heq
    exact Option.noConfusion heq

theorem applySeatMove_rowPartition (si : SeatInfo) (L : List Str) (r : Str)
    (hPairs : (L.map (fun s => (rowOf s, numOf s))).Nodup)
    (hsub : ∀ s ∈ L, numOf s ∈ availNums si (rowOf s))
    (hOccNd : (si.occupied_seats.map (fun od => od.row)).Nodup)
    (hCover : ∀ s ∈ L, ∃ od ∈ si.occupied_seats, od.row = rowOf s)
    (hA : (availNums si r).Nodup) (hO : (occNums si r).Nodup)
    (hD : ∀ n ∈ availNums si r, n ∉ occNums si r) :
    RowPartitionStep si (applySeatMove si L) r := by
  have havail := availNums_applySeatMove si L r
  by_cases hg : L.any (fun s => rowOf s == r) = true
  case neg =>
    have hgf : L.any (fun s => rowOf s == r) = false := by simpa using hg
    have hmv : movedNums L r = [] := movedNums_eq_nil _ _ hgf
    have hocc := occNums_applySeatMove_skip si L r hgf
    have hid : (availNums si r).filter (fun n => !((movedNums L r).contains n)) =
        availNums si r := by
      rw [hmv]
      simp
    rw [RowPartitionStep, havail, hocc, hid]
    exact ⟨hA, hO, hD, List.Perm.refl _⟩
  case pos =>
    rcases List.any_eq_true.mp hg with ⟨s0, hs0, hs0r⟩
    have hr0 : rowOf s0 = r := eq_of_beq hs0r
    rcases hCover s0 hs0 with ⟨od, hod, hodr⟩
    have hodrow : od.row = r := by rw [hodr, hr0]
    have hoccpre : occNums si r = od.occupied_numbers :=
      occNums_single si r hOccNd od hod hodrow
    have hocc := occNums_applySeatMove_hit si L r hg hOccNd od hod hodrow
    have hmnd : (movedNums L r).Nodup := movedNums_nodup L r hPairs
    have hmsub : ∀ n ∈ movedNums L r, n ∈ availNums si r := movedNums_sub si L r hsub
    have hmocc : ∀ n ∈ movedNums L r, n ∉ occNums si r := fun n hn => hD n (hmsub n hn)
    have hsortperm : (occNums (applySeatMove si L) r).Perm
        (od.occupied_numbers ++ movedNums L r) := by
      rw [hocc]
      exact List.perm_insertionSort _ _
    refine ⟨?_, ?_, ?_, ?_⟩
    · rw [havail]
      exact hA.filter _
    · rw [hocc]
      refine (List.perm_insertionSort _ _).symm.nodup ?_
      rw [List.nodup_append]
      refine ⟨by rw [← hoccpre]; exact hO, hmnd, ?_⟩
      intro a ha ham
      exact hmocc a ham (by rw [hoccpre]; exact ha)
    · intro n hn hn2
      rw [havail] at hn
      rcases List.mem_filter.mp hn with ⟨hna, hnb⟩
      have hnm : n ∉ movedNums L r := by
        intro hc
        rw [show (movedNums L r).contains n = true from List.elem_iff.mpr hc] at hnb
        exact Bool.noConfusion hnb
      rcases List.mem_append.mp (hsortperm.mem_iff.mp hn2) with h1 | h2
      · exact hD n hna (by rw [hoccpre]; exact h1)
      · exact hnm h2
    · rw [havail]
      have hPm : (movedNums L r).Perm
          ((availNums si r).filter (fun n => (movedNums L r).contains n)) := by
        apply (List.perm_ext_iff_of_nodup hmnd (hA.filter _)).mpr
        intro a
        constructor
        · intro ha
          exact List.mem_filter.mpr ⟨hmsub a ha, List.elem_iff.mpr ha⟩
        · intro ha
          exact List.elem_iff.mp (List.mem_filter.mp ha).2
      refine (hsortperm.append_left _).trans ?_
      refine (List.perm_append_comm.append_left _).trans ?_
      rw [← List.append_assoc]
      refine ((hPm.append_left _).append_right _).trans ?_
      refine (List.perm_append_comm.append_right _).trans ?_
      refine ((List.filter_append_perm _ _).append_right _).trans ?_
      simp only [hoccpre]
      exact List.Perm.refl _

/-- C2 (counterexample): the claim that an error return leaves no effect
half-committed is false: when the seat-map write fails after the reservation
write succeeded, `reserve_seats` returns an error yet the reservation record
has been appended while the seat map was not updated. -/
theorem reserve_seats_no_partial_success_counterexample :
    reserveSeats (.ok ⟨some (str "S1"), some (str "A1")⟩)
        (.ok [⟨str "S1", str "M1", str "2025-01-01", str "10:00", str "12:00", str "T1"⟩])
        (.ok [⟨str "M1", str "Movie", str "Drama"⟩])
        (.ok [⟨str "S1", [⟨str "A", [1, 2, 3]⟩], [⟨str "A", []⟩]⟩])
        (.ok []) true false (str "20250101100000") (str "iso1") =
      ⟨.error (str "Failed to update seat availability."), none,
        some [⟨str "RES20250101100000", str "S1", [str "A1"], str "iso1",
          str "confirmed"⟩]⟩ := by
  decide

/-- C2 (amended): a `reserve_seats` call reports success exactly when both the
reservation-log write and the seat-map write committed; it never reports a
partial commit as success.  However, on the error path the partial state
"reservation logged, seat map unwritten" can occur (the log is written first),
so the amendment replaces "neither effect committed on error" by "success iff
both effects committed". -/
theorem reserve_seats_success_iff_both_writes (ctx : Except Unit ReserveArgs)
    (sl : Except Unit (List Schedule)) (ml : Except Unit (List Movie))
    (stl : Except Unit (List SeatInfo)) (rl : Except Unit (List Reservation))
    (rOk sOk : Bool) (ts iso : Str) :
    (reserveSeats ctx sl ml stl rl rOk sOk ts iso).response.isOk =
      ((reserveSeats ctx sl ml stl rl rOk sOk ts iso).resBlob.isSome &&
        (reserveSeats ctx sl ml stl rl rOk sOk ts iso).seatBlob.isSome) := by
  simp only [reserveSeats]
  repeat' split
  all_goals rfl

/-- C7 (counterexample): the claim that the seat map is persisted before the
log — so that a logged reservation with still-available seats is impossible —
is false: the source writes the reservation log first, and when the subsequent
seat-map write fails the log holds a reservation for seat B2 while B2 is still
listed available (the seat blob was never written). -/
theorem reserve_seats_commit_ordering_counterexample :
    reserveSeats (.ok ⟨some (str "S1"), some (str "B2")⟩)
        (.ok [⟨str "S1", str "M1", str "2025-01-02", str "10:00", str "12:00", str "T1"⟩])
        (.ok [⟨str "M1", str "Movie", str "Drama"⟩])
        (.ok [⟨str "S1", [⟨str "B", [2, 3]⟩], [⟨str "B", []⟩]⟩])
        (.ok []) true false (str "20250102100000") (str "iso2") =
      ⟨.error (str "Failed to update seat availability."), none,
        some [⟨str "RES20250102100000", str "S1", [str "B2"], str "iso2",
          str "confirmed"⟩]⟩ ∧
    (availList ⟨str "S1", [⟨str "B", [2, 3]⟩], [⟨str "B", []⟩]⟩).contains (str "B2") =
      true := by
  constructor
  · decide
  · decide

/-- C7 (amended): the reservation-log write happens before the seat-map write,
so whenever the seat map was written the log write had already succeeded; the
only possible partial-failure state is a logged reservation whose seats are
still marked available, never seats occupied without a record. -/
theorem reserve_seats_log_written_before_map (ctx : Except Unit ReserveArgs)
    (sl : Except Unit (List Schedule)) (ml : Except Unit (List Movie))
    (stl : Except Unit (List SeatInfo)) (rl : Except Unit (List Reservation))
    (rOk sOk : Bool) (ts iso : Str)
    (h : (reserveSeats ctx sl ml stl rl rOk sOk ts iso).seatBlob.isSome = true) :
    (reserveSeats ctx sl ml stl rl rOk sOk ts iso).resBlob.isSome = true := by
  revert h
  simp only [reserveSeats]
  repeat' split
  all_goals intro h
  all_goals first
    | rfl
    | exact absurd h (by simp)

/-- C7 (witness): a concrete successful call on which the amended ordering
theorem applies: the seat map was written, hence the log was written. -/
theorem reserve_seats_log_written_before_map_witness :
    (reserveSeats (.ok ⟨some (str "S1"), some (str "A1")⟩)
        (.ok [⟨str "S1", str "M1", str "2025-01-01", str "10:00", str "12:00", str "T1"⟩])
        (.ok [⟨str "M1", str "Movie", str "Drama"⟩])
        (.ok [⟨str "S1", [⟨str "A", [1, 2]⟩], [⟨str "A", []⟩]⟩])
        (.ok []) true true (str "20250101100000") (str "iso1")).seatBlob.isSome = true ∧
    (reserveSeats (.ok ⟨some (str "S1"), some (str "A1")⟩)
        (.ok [⟨str "S1", str "M1", str "2025-01-01", str "10:00", str "12:00", str "T1"⟩])
        (.ok [⟨str "M1", str "Movie", str "Drama"⟩])
        (.ok [⟨str "S1", [⟨str "A", [1, 2]⟩], [⟨str "A", []⟩]⟩])
        (.ok []) true true (str "20250101100000") (str "iso1")).resBlob.isSome = true :=
  ⟨by decide, reserve_seats_log_written_before_map _ _ _ _ _ _ _ _ _ (by decide)⟩

/-- C10: every tool handler is a total function: an exception while parsing the
trigger context (the only computation outside the per-load handlers) is caught
by the outermost handler and surfaced as the `Internal server error.` object
(with no blob write in `reserve_seats`), and every outcome of every handler is
either the success payload or an error object carrying a message. -/
theorem tool_handlers_total :
    (∀ ml sl, getMovieList (.error ()) ml sl = .error (str "Internal server error.")) ∧
    (∀ ml sl stl,
      getShowSchedule (.error ()) ml sl stl = .error (str "Internal server error.")) ∧
    (∀ sl ml stl,
      getSeatAvailability (.error ()) sl ml stl = .error (str "Internal server error.")) ∧
    (∀ sl ml stl rl rOk sOk ts iso,
      reserveSeats (.error ()) sl ml stl rl rOk sOk ts iso =
        ⟨.error (str "Internal server error."), none, none⟩) ∧
    (∀ rl sl ml,
      getReservationDetails (.error ()) rl sl ml = .error (str "Internal server error.")) ∧
    (∀ ctx ml sl, (∃ ms, getMovieList ctx ml sl = .ok ms) ∨
      ∃ m, getMovieList ctx ml sl = .error m) ∧
    (∀ ctx ml sl stl, (∃ es, getShowSchedule ctx ml sl stl = .ok es) ∨
      ∃ m, getShowSchedule ctx ml sl stl = .error m) ∧
    (∀ ctx sl ml stl, (∃ sch mv av oc, getSeatAvailability ctx sl ml stl = .ok sch mv av oc) ∨
      ∃ m, getSeatAvailability ctx sl ml stl = .error m) ∧
    (∀ ctx sl ml stl rl rOk sOk ts iso,
      (∃ rv sch mv msg,
        (reserveSeats ctx sl ml stl rl rOk sOk ts iso).response = .ok rv sch mv msg) ∨
      ∃ m, (reserveSeats ctx sl ml stl rl rOk sOk ts iso).response = .error m) ∧
    (∀ ctx rl sl ml, (∃ rv sch mv ds, getReservationDetails ctx rl sl ml = .ok rv sch mv ds) ∨
      ∃ m, getReservationDetails ctx rl sl ml = .error m) := by
  refine ⟨fun ml sl => rfl, fun ml sl stl => rfl, fun sl ml stl => rfl,
    fun sl ml stl rl rOk sOk ts iso => rfl, fun rl sl ml => rfl, ?_, ?_, ?_, ?_, ?_⟩
  · intro ctx ml sl
    cases h : getMovieList ctx ml sl with
    | ok ms => exact Or.inl ⟨ms, rfl⟩
    | error m => exact Or.inr ⟨m, rfl⟩
  · intro ctx ml sl stl
    cases h : getShowSchedule ctx ml sl stl with
    | ok es => exact Or.inl ⟨es, rfl⟩
    | error m => exact Or.inr ⟨m, rfl⟩
  · intro ctx sl ml stl
    cases h : getSeatAvailability ctx sl ml stl with
    | ok sch mv av oc => exact Or.inl ⟨sch, mv, av, oc, rfl⟩
    | error m => exact Or.inr ⟨m, rfl⟩
  · intro ctx sl ml stl rl rOk sOk ts iso
    cases h : (reserveSeats ctx sl ml stl rl rOk sOk ts iso).response with
    | ok rv sch mv msg => exact Or.inl ⟨rv, sch, mv, msg, rfl⟩
    | error m => exact Or.inr ⟨m, rfl⟩
  · intro ctx rl sl ml
    cases h : getReservationDetails ctx rl sl ml with
    | ok rv sch mv ds => exact Or.inl ⟨rv, sch, mv, ds, rfl⟩
    | error m => exact Or.inr ⟨m, rfl⟩

/-- C3: the duplicate-request check required by the spec is missing from the
code: the request `"A1,A1"` parses to a duplicated seat list, yet the call
succeeds, writes both blobs, and corrupts the seat map (row A ends up with
occupied numbers `[1, 1]`) instead of failing with a validation error and
performing no write. -/
theorem reserve_seats_duplicate_request_accepted :
    parseSeatIds (str "A1,A1") = [str "A1", str "A1"] ∧
    ¬ (parseSeatIds (str "A1,A1")).Nodup ∧
    reserveSeats (.ok ⟨some (str "S1"), some (str "A1,A1")⟩)
        (.ok [⟨str "S1", str "M1", str "2025-01-01", str "10:00", str "12:00", str "T1"⟩])
        (.ok [⟨str "M1", str "Movie", str "Drama"⟩])
        (.ok [⟨str "S1", [⟨str "A", [1, 2, 3]⟩], [⟨str "A", []⟩]⟩])
        (.ok []) true true (str "20250101100000") (str "iso1") =
      ⟨.ok ⟨str "RES20250101100000", str "S1", [str "A1", str "A1"], str "iso1",
          str "confirmed"⟩
        ⟨str "S1", str "M1", str "2025-01-01", str "10:00", str "12:00", str "T1"⟩
        ⟨str "M1", str "Movie", str "Drama"⟩
        (str "Successfully reserved 2 seat(s): A1, A1."),
        some [⟨str "S1", [⟨str "A", [2, 3]⟩], [⟨str "A", [1, 1]⟩]⟩],
        some [⟨str "RES20250101100000", str "S1", [str "A1", str "A1"], str "iso1",
          str "confirmed"⟩]⟩ := by
  refine ⟨by decide, by decide, by decide⟩

/-- C5: the seat map carries no version counter and `reserve_seats` performs no
expected-version check: two calls that both read the same seat-map snapshot
both succeed (no Conflict is ever reported), and the blob written by the
second call silently discards the first call's commit — seat A1, already
committed occupied by the first call, is listed available again in the second
call's written seat map (a lost update). -/
theorem reserve_seats_no_version_check_lost_update :
    (reserveSeats (.ok ⟨some (str "S1"), some (str "A1")⟩)
        (.ok [⟨str "S1", str "M1", str "2025-01-01", str "10:00", str "12:00", str "T1"⟩])
        (.ok [⟨str "M1", str "Movie", str "Drama"⟩])
        (.ok [⟨str "S1", [⟨str "A", [1, 2]⟩], [⟨str "A", []⟩]⟩])
        (.ok []) true true (str "20250101100000") (str "i1")).seatBlob =
      some [⟨str "S1", [⟨str "A", [2]⟩], [⟨str "A", [1]⟩]⟩] ∧
    (reserveSeats (.ok ⟨some (str "S1"), some (str "A2")⟩)
        (.ok [⟨str "S1", str "M1", str "2025-01-01", str "10:00", str "12:00", str "T1"⟩])
        (.ok [⟨str "M1", str "Movie", str "Drama"⟩])
        (.ok [⟨str "S1", [⟨str "A", [1, 2]⟩], [⟨str "A", []⟩]⟩])
        (.ok [⟨str "RES20250101100000", str "S1", [str "A1"], str "i1", str "confirmed"⟩])
        true true (str "20250101100001") (str "i2")).response.isOk = true ∧
    (reserveSeats (.ok ⟨some (str "S1"), some (str "A2")⟩)
        (.ok [⟨str "S1", str "M1", str "2025-01-01", str "10:00", str "12:00", str "T1"⟩])
        (.ok [⟨str "M1", str "Movie", str "Drama"⟩])
        (.ok [⟨str "S1", [⟨str "A", [1, 2]⟩], [⟨str "A", []⟩]⟩])
        (.ok [⟨str "RES20250101100000", str "S1", [str "A1"], str "i1", str "confirmed"⟩])
        true true (str "20250101100001") (str "i2")).seatBlob =
      some [⟨str "S1", [⟨str "A", [1]⟩], [⟨str "A", [2]⟩]⟩] ∧
    1 ∈ availNums ⟨str "S1", [⟨str "A", [1]⟩], [⟨str "A", [2]⟩]⟩ (str "A") := by
  refine ⟨by decide, by decide, by decide, by decide⟩

/-- C6: reservation ids are not unique under load: `generate_reservation_id`
is `"RES"` plus a second-granularity timestamp, so two distinct successful
calls committing within the same clock second (here: different seats, same
`%Y%m%d%H%M%S` reading) receive the identical reservation id, and the log
gains two records with the same id. -/
theorem generate_reservation_id_collision :
    generateReservationId (str "20250101120000") = str "RES20250101120000" ∧
    (reserveSeats (.ok ⟨some (str "S1"), some (str "A1")⟩)
        (.ok [⟨str "S1", str "M1", str "2025-01-01", str "12:00", str "14:00", str "T1"⟩])
        (.ok [⟨str "M1", str "Movie", str "Drama"⟩])
        (.ok [⟨str "S1", [⟨str "A", [1, 2]⟩], [⟨str "A", []⟩]⟩])
        (.ok []) true true (str "20250101120000") (str "i1")).response.reservationId =
      some (str "RES20250101120000") ∧
    (reserveSeats (.ok ⟨some (str "S1"), some (str "A2")⟩)
        (.ok [⟨str "S1", str "M1", str "2025-01-01", str "12:00", str "14:00", str "T1"⟩])
        (.ok [⟨str "M1", str "Movie", str "Drama"⟩])
        (.ok [⟨str "S1", [⟨str "A", [2]⟩], [⟨str "A", [1]⟩]⟩])
        (.ok [⟨str "RES20250101120000", str "S1", [str "A1"], str "i1", str "confirmed"⟩])
        true true (str "20250101120000") (str "i2")).response.reservationId =
      some (str "RES20250101120000") ∧
    (reserveSeats (.ok ⟨some (str "S1"), some (str "A2")⟩)
        (.ok [⟨str "S1", str "M1", str "2025-01-01", str "12:00", str "14:00", str "T1"⟩])
        (.ok [⟨str "M1", str "Movie", str "Drama"⟩])
        (.ok [⟨str "S1", [⟨str "A", [2]⟩], [⟨str "A", [1]⟩]⟩])
        (.ok [⟨str "RES20250101120000", str "S1", [str "A1"], str "i1", str "confirmed"⟩])
        true true (str "20250101120000") (str "i2")).resBlob =
      some [⟨str "RES20250101120000", str "S1", [str "A1"], str "i1", str "confirmed"⟩,
        ⟨str "RES20250101120000", str "S1", [str "A2"], str "i2", str "confirmed"⟩] := by
  refine ⟨by decide, by decide, by decide, by decide⟩

/-- C1 (counterexample): the partition invariant is not preserved by every
successful `reserve_seats` call: the duplicated request `"A1,A1"` succeeds and
the written seat map lists row A occupied as `[1, 1]` — a duplicate — and the
multiset union of available and occupied numbers for row A changes from
`[1, 2]` to `[2, 1, 1]` (a seat was duplicated). -/
theorem reserve_seats_row_partition_counterexample :
    (reserveSeats (.ok ⟨some (str "S1"), some (str "A1,A1")⟩)
        (.ok [⟨str "S1", str "M1", str "2025-01-01", str "10:00", str "12:00", str "T1"⟩])
        (.ok [⟨str "M1", str "Movie", str "Drama"⟩])
        (.ok [⟨str "S1", [⟨str "A", [1, 2]⟩], [⟨str "A", []⟩]⟩])
        (.ok []) true true (str "20250101100000") (str "i1")).response.isOk = true ∧
    (reserveSeats (.ok ⟨some (str "S1"), some (str "A1,A1")⟩)
        (.ok [⟨str "S1", str "M1", str "2025-01-01", str "10:00", str "12:00", str "T1"⟩])
        (.ok [⟨str "M1", str "Movie", str "Drama"⟩])
        (.ok [⟨str "S1", [⟨str "A", [1, 2]⟩], [⟨str "A", []⟩]⟩])
        (.ok []) true true (str "20250101100000") (str "i1")).seatBlob =
      some [⟨str "S1", [⟨str "A", [2]⟩], [⟨str "A", [1, 1]⟩]⟩] ∧
    ¬ (occNums ⟨str "S1", [⟨str "A", [2]⟩], [⟨str "A", [1, 1]⟩]⟩ (str "A")).Nodup ∧
    ¬ (availNums ⟨str "S1", [⟨str "A", [2]⟩], [⟨str "A", [1, 1]⟩]⟩ (str "A") ++
        occNums ⟨str "S1", [⟨str "A", [2]⟩], [⟨str "A", [1, 1]⟩]⟩ (str "A")).Perm
      (availNums ⟨str "S1", [⟨str "A", [1, 2]⟩], [⟨str "A", []⟩]⟩ (str "A") ++
        occNums ⟨str "S1", [⟨str "A", [1, 2]⟩], [⟨str "A", []⟩]⟩ (str "A")) := by
  refine ⟨by decide, by decide, by decide, by decide⟩

/-- C1 (amended): for a successful `reserve_seats` call whose request holds no
duplicate seat (row, number) pair, over a seat map whose occupied-row labels
are duplicate-free and cover the requested rows, the written seat map replaces
only the matched record with `applySeatMove`, and at every row label the
partition invariant is preserved: available and occupied stay duplicate-free
and disjoint, and their multiset union is unchanged (seats only move from
available to occupied). -/
theorem reserve_seats_row_partition
    (sid sstr : Str) (schedules : List Schedule) (movies : List Movie)
    (seatData : List SeatInfo) (sched : Schedule) (movie : Movie) (idx : Nat)
    (si : SeatInfo) (resLoad : Except Unit (List Reservation)) (ts iso : Str) (r : Str)
    (h : HappyReserveRequest sid sstr schedules movies seatData sched movie idx si)
    (havail : ∀ s ∈ parseSeatIds sstr, (availList si).contains s = true)
    (hPairs : ((parseSeatIds sstr).map (fun s => (rowOf s, numOf s))).Nodup)
    (hsub : ∀ s ∈ parseSeatIds sstr, numOf s ∈ availNums si (rowOf s))
    (hOccNd : (si.occupied_seats.map (fun od => od.row)).Nodup)
    (hCover : ∀ s ∈ parseSeatIds sstr, ∃ od ∈ si.occupied_seats, od.row = rowOf s)
    (hA : (availNums si r).Nodup) (hO : (occNums si r).Nodup)
    (hD : ∀ n ∈ availNums si r, n ∉ occNums si r) :
    (reserveSeats (.ok ⟨some sid, some sstr⟩) (.ok schedules) (.ok movies)
        (.ok seatData) resLoad true true ts iso).response.isOk = true ∧
    (reserveSeats (.ok ⟨some sid, some sstr⟩) (.ok schedules) (.ok movies)
        (.ok seatData) resLoad true true ts iso).seatBlob =
      some (seatData.set idx (applySeatMove si (parseSeatIds sstr))) ∧
    RowPartitionStep si (applySeatMove si (parseSeatIds sstr)) r := by
  have hfind : (parseSeatIds sstr).find? (fun s => !((availList si).contains s)) = none := by
    rw [List.find?_eq_none]
    intro x hx
    rw [havail x hx]
    decide
  rw [reserveSeats_eval_success sid sstr schedules movies seatData sched movie idx si
    resLoad ts iso h hfind]
  exact ⟨rfl, rfl,
    applySeatMove_rowPartition si (parseSeatIds sstr) r hPairs hsub hOccNd hCover hA hO hD⟩

/-- C1 (witness): a concrete two-seat booking on which the amended partition
theorem applies at row A. -/
theorem reserve_seats_row_partition_witness :
    HappyReserveRequest (str "S1") (str "A1,B2")
      [⟨str "S1", str "M1", str "2025-01-01", str "10:00", str "12:00", str "T1"⟩]
      [⟨str "M1", str "Movie", str "Drama"⟩]
      [⟨str "S1", [⟨str "A", [1, 2]⟩, ⟨str "B", [2, 3]⟩], [⟨str "A", []⟩, ⟨str "B", [5]⟩]⟩]
      ⟨str "S1", str "M1", str "2025-01-01", str "10:00", str "12:00", str "T1"⟩
      ⟨str "M1", str "Movie", str "Drama"⟩ 0
      ⟨str "S1", [⟨str "A", [1, 2]⟩, ⟨str "B", [2, 3]⟩], [⟨str "A", []⟩, ⟨str "B", [5]⟩]⟩ ∧
    RowPartitionStep
      ⟨str "S1", [⟨str "A", [1, 2]⟩, ⟨str "B", [2, 3]⟩], [⟨str "A", []⟩, ⟨str "B", [5]⟩]⟩
      (applySeatMove
        ⟨str "S1", [⟨str "A", [1, 2]⟩, ⟨str "B", [2, 3]⟩], [⟨str "A", []⟩, ⟨str "B", [5]⟩]⟩
        (parseSeatIds (str "A1,B2")))
      (str "A") := by
  have h : HappyReserveRequest (str "S1") (str "A1,B2")
      [⟨str "S1", str "M1", str "2025-01-01", str "10:00", str "12:00", str "T1"⟩]
      [⟨str "M1", str "Movie", str "Drama"⟩]
      [⟨str "S1", [⟨str "A", [1, 2]⟩, ⟨str "B", [2, 3]⟩], [⟨str "A", []⟩, ⟨str "B", [5]⟩]⟩]
      ⟨str "S1", str "M1", str "2025-01-01", str "10:00", str "12:00", str "T1"⟩
      ⟨str "M1", str "Movie", str "Drama"⟩ 0
      ⟨str "S1", [⟨str "A", [1, 2]⟩, ⟨str "B", [2, 3]⟩], [⟨str "A", []⟩, ⟨str "B", [5]⟩]⟩ :=
    ⟨by decide, by decide, by decide, by decide, by decide, by decide, by decide,
      by decide, by decide⟩
  refine ⟨h, ?_⟩
  exact (reserve_seats_row_partition (str "S1") (str "A1,B2") _ _ _ _ _ 0 _
    (.ok []) (str "20250101100000") (str "i1") (str "A") h
    (by decide) (by decide) (by decide) (by decide) (by decide)
    (by decide) (by decide) (by decide)).2.2

theorem not_mem_availList_of_row_absent (si : SeatInfo) (s0 : Str)
    (hlen1 : ∀ rd ∈ si.available_seats, rd.row.length = 1)
    (hrow : ∀ rd ∈ si.available_seats, rd.row ≠ rowOf s0) :
    (availList si).contains s0 = false := by
  cases hc : (availList si).contains s0 with
  | false => rfl
  | true =>
    exfalso
    have hmem : s0 ∈ availList si := List.elem_iff.mp hc
    rcases List.mem_flatMap.mp hmem with ⟨rd, hrd, hmem2⟩
    rcases List.mem_map.mp hmem2 with ⟨n, _, heq⟩
    rcases List.length_eq_one.mp (hlen1 rd hrd) with ⟨c, hc1⟩
    apply hrow rd hrd
    rw [hc1, ← heq, hc1]
    rfl

theorem find?_first_bad (av : List Str) (s0 : Str) (suf : List Str) : ∀ pre : List Str,
    (∀ x ∈ pre, av.contains x = true) → av.contains s0 = false →
    (pre ++ s0 :: suf).find? (fun s => !(av.contains s)) = some s0 := by
  intro pre
  induction pre with
  | nil =>
    intro _ h0
    exact List.find?_cons_of_pos _ (by rw [h0]; rfl)
  | cons x xs ih =>
    intro hpre h0
    rw [List.cons_append, List.find?_cons_of_neg _ (by
      rw [hpre x (List.mem_cons_self x xs)]
      decide)]
    exact ih (fun y hy => hpre y (List.mem_cons_of_mem x hy)) h0

/-- C4 (counterexample): a request for seat Z9, whose row Z does not exist at
all in the schedule's seat map, is rejected with the seat-occupied error
message `Seat Z9 is already occupied.` — the very same error shape produced
for a genuinely occupied seat (second conjunct) — not with a distinct
validation error; the state is left unchanged (no blob written). -/
theorem reserve_seats_unknown_seat_counterexample :
    reserveSeats (.ok ⟨some (str "S1"), some (str "Z9")⟩)
        (.ok [⟨str "S1", str "M1", str "2025-01-01", str "10:00", str "12:00", str "T1"⟩])
        (.ok [⟨str "M1", str "Movie", str "Drama"⟩])
        (.ok [⟨str "S1", [⟨str "A", [1, 2, 3]⟩], [⟨str "A", []⟩]⟩])
        (.ok []) true true (str "20250101100000") (str "i1") =
      ⟨.error (str "Seat Z9 is already occupied."), none, none⟩ ∧
    reserveSeats (.ok ⟨some (str "S1"), some (str "A1")⟩)
        (.ok [⟨str "S1", str "M1", str "2025-01-01", str "10:00", str "12:00", str "T1"⟩])
        (.ok [⟨str "M1", str "Movie", str "Drama"⟩])
        (.ok [⟨str "S1", [⟨str "A", [2, 3]⟩], [⟨str "A", [1]⟩]⟩])
        (.ok []) true true (str "20250101100000") (str "i1") =
      ⟨.error (str "Seat A1 is already occupied."), none, none⟩ := by
  refine ⟨by decide, by decide⟩

/-- C4 (amended): a seat whose row label occurs nowhere in the seat map's
available rows (all of whose labels are single characters) makes
`reserve_seats` fail with the seat-occupied error naming that seat — the same
error as for an occupied seat, not a distinct validation error — and neither
blob is written. -/
theorem reserve_seats_unknown_seat_error
    (sid sstr : Str) (schedules : List Schedule) (movies : List Movie)
    (seatData : List SeatInfo) (sched : Schedule) (movie : Movie) (idx : Nat)
    (si : SeatInfo) (resLoad : Except Unit (List Reservation))
    (rOk sOk : Bool) (ts iso : Str) (pre suf : List Str) (s0 : Str)
    (h : HappyReserveRequest sid sstr schedules movies seatData sched movie idx si)
    (hsplit : parseSeatIds sstr = pre ++ s0 :: suf)
    (hpre : ∀ x ∈ pre, (availList si).contains x = true)
    (hlen1 : ∀ rd ∈ si.available_seats, rd.row.length = 1)
    (hrow : ∀ rd ∈ si.available_seats, rd.row ≠ rowOf s0) :
    reserveSeats (.ok ⟨some sid, some sstr⟩) (.ok schedules) (.ok movies)
        (.ok seatData) resLoad rOk sOk ts iso =
      ⟨.error (str "Seat " ++ s0 ++ str " is already occupied."), none, none⟩ := by
  have h0 := not_mem_availList_of_row_absent si s0 hlen1 hrow
  have hfind : (parseSeatIds sstr).find? (fun s => !((availList si).contains s)) =
      some s0 := by
    rw [hsplit]
    exact find?_first_bad (availList si) s0 suf pre hpre h0
  exact reserveSeats_eval_unavailable sid sstr schedules movies seatData sched movie idx
    si resLoad rOk sOk ts iso s0 h hfind

/-- C4 (witness): the amended theorem applied to the concrete Z9 scenario. -/
theorem reserve_seats_unknown_seat_error_witness :
    HappyReserveRequest (str "S1") (str "Z9")
      [⟨str "S1", str "M1", str "2025-01-01", str "10:00", str "12:00", str "T1"⟩]
      [⟨str "M1", str "Movie", str "Drama"⟩]
      [⟨str "S1", [⟨str "A", [1, 2, 3]⟩], [⟨str "A", []⟩]⟩]
      ⟨str "S1", str "M1", str "2025-01-01", str "10:00", str "12:00", str "T1"⟩
      ⟨str "M1", str "Movie", str "Drama"⟩ 0
      ⟨str "S1", [⟨str "A", [1, 2, 3]⟩], [⟨str "A", []⟩]⟩ ∧
    parseSeatIds (str "Z9") = [] ++ str "Z9" :: [] ∧
    reserveSeats (.ok ⟨some (str "S1"), some (str "Z9")⟩)
        (.ok [⟨str "S1", str "M1", str "2025-01-01", str "10:00", str "12:00", str "T1"⟩])
        (.ok [⟨str "M1", str "Movie", str "Drama"⟩])
        (.ok [⟨str "S1", [⟨str "A", [1, 2, 3]⟩], [⟨str "A", []⟩]⟩])
        (.ok []) true true (str "20250101100000") (str "i1") =
      ⟨.error (str "Seat " ++ str "Z9" ++ str " is already occupied."), none, none⟩ := by
  have h : HappyReserveRequest (str "S1") (str "Z9")
      [⟨str "S1", str "M1", str "2025-01-01", str "10:00", str "12:00", str "T1"⟩]
      [⟨str "M1", str "Movie", str "Drama"⟩]
      [⟨str "S1", [⟨str "A", [1, 2, 3]⟩], [⟨str "A", []⟩]⟩]
      ⟨str "S1", str "M1", str "2025-01-01", str "10:00", str "12:00", str "T1"⟩
      ⟨str "M1", str "Movie", str "Drama"⟩ 0
      ⟨str "S1", [⟨str "A", [1, 2, 3]⟩], [⟨str "A", []⟩]⟩ :=
    ⟨by decide, by decide, by decide, by decide, by decide, by decide, by decide,
      by decide, by decide⟩
  refine ⟨h, by decide, ?_⟩
  exact reserve_seats_unknown_seat_error (str "S1") (str "Z9") _ _ _ _ _ 0 _
    (.ok []) true true (str "20250101100000") (str "i1") [] [] (str "Z9") h
    (by decide) (by decide) (by decide) (by decide)

/-- C9 (counterexample): the reader does not skip malformed lines: on a log of
JSON number documents whose middle line `x` is malformed, the whole read fails
(the raised exception aborts it) and none of the two well-formed records is
returned, while the same reader run on the well-formed lines alone parses them
fine. -/
theorem load_jsonl_malformed_line_counterexample :
    loadJsonlFromBlob (fun s => if s.all Char.isDigit && !s.isEmpty
        then some (digitsToNat s) else none) (str "1\nx\n2") = .error () ∧
    loadJsonlFromBlob (fun s => if s.all Char.isDigit && !s.isEmpty
        then some (digitsToNat s) else none) (str "1\n2") = .ok [1, 2] := by
  exact ⟨rfl, rfl⟩

theorem loadJsonlLines_error_of_bad {α : Type} (parse : Str → Option α) :
    ∀ lines : List Str, ∀ line ∈ lines, (pyStrip line).isEmpty = false →
      parse (pyStrip line) = none → loadJsonlLines parse lines = .error () := by
  intro lines
  induction lines with
  | nil =>
    intro line hmem
    exact absurd hmem (List.not_mem_nil line)
  | cons l t ih =>
    intro line hmem hnb hbad
    rcases List.mem_cons.mp hmem with hl | hl
    · subst hl
      rw [loadJsonlLines, if_neg (by rw [hnb]; decide), hbad]
    · rw [loadJsonlLines]
      by_cases hblank : (pyStrip l).isEmpty = true
      · rw [if_pos hblank]
        exact ih line hl hnb hbad
      · rw [if_neg hblank]
        cases hp : parse (pyStrip l) with
        | none => rfl
        | some r =>
          rw [ih line hl hnb hbad]

/-- C9 (amended): corruption of a single line is not tolerated: whenever any
non-blank line of the log content fails to parse, `load_jsonl_from_blob`
raises (modelled as `.error ()`), returning none of the well-formed records
and reporting no skip count; callers surface this as a failed read of the
whole log. -/
theorem load_jsonl_fails_on_malformed_line {α : Type} (parse : Str → Option α)
    (content line : Str)
    (hmem : line ∈ splitOnChar '\n' (pyStrip content))
    (hnb : (pyStrip line).isEmpty = false)
    (hbad : parse (pyStrip line) = none) :
    loadJsonlFromBlob parse content = .error () :=
  loadJsonlLines_error_of_bad parse (splitOnChar '\n' (pyStrip content)) line hmem hnb hbad

/-- C9 (witness): the amended theorem applied to the concrete corrupted log. -/
theorem load_jsonl_fails_on_malformed_line_witness :
    str "x" ∈ splitOnChar '\n' (pyStrip (str "7\nx\n9")) ∧
    (pyStrip (str "x")).isEmpty = false ∧
    (fun s => if s.all Char.isDigit && !s.isEmpty
        then some (digitsToNat s) else none) (pyStrip (str "x")) = none ∧
    loadJsonlFromBlob (fun s => if s.all Char.isDigit && !s.isEmpty
        then some (digitsToNat s) else none) (str "7\nx\n9") = .error () := by
  refine ⟨by decide, by decide, by decide, ?_⟩
  exact load_jsonl_fails_on_malformed_line _ (str "7\nx\n9") (str "x")
    (by decide) (by decide) (by decide)

theorem find?_resv_append (resv : Reservation) (rid : Str)
    (hid : resv.reservation_id = rid) : ∀ existing : List Reservation,
    (∀ rv ∈ existing, rv.reservation_id ≠ rid) →
    (existing ++ [resv]).find? (fun rv => rv.reservation_id == rid) = some resv := by
  intro existing
  induction existing with
  | nil =>
    intro _
    exact List.find?_cons_of_pos _ (by rw [hid]; simp)
  | cons x xs ih =>
    intro hfresh
    rw [List.cons_append, List.find?_cons_of_neg _ (by
      simp only [beq_iff_eq]
      exact hfresh x (List.mem_cons_self x xs))]
    exact ih (fun y hy => hfresh y (List.mem_cons_of_mem x hy))

theorem parseSeatDetail_ok (s : Str) (h : validateSeatIdFormat s = true) :
    parseSeatDetail s = .ok ⟨s, s.take 1, digitsToNat (s.drop 1)⟩ := by
  cases s with
  | nil => exact absurd h (by decide)
  | cons c rest =>
    simp only [validateSeatIdFormat, Bool.and_eq_true] at h
    rw [parseSeatDetail, if_neg (by
      simp only [Bool.or_eq_true, Bool.not_eq_true]
      rintro (h1 | h2)
      · rw [h1] at h
        exact Bool.noConfusion h.1.2
      · rw [h.2] at h2
        exact Bool.noConfusion h2)]
    rfl

theorem seatDetailsOf_ok : ∀ L : List Str, (∀ s ∈ L, validateSeatIdFormat s = true) →
    ∃ ds, seatDetailsOf L = .ok ds := by
  intro L
  induction L with
  | nil => exact fun _ => ⟨[], rfl⟩
  | cons s t ih =>
    intro hfmt
    rcases ih (fun y hy => hfmt y (List.mem_cons_of_mem s hy)) with ⟨ds, hds⟩
    refine ⟨⟨s, s.take 1, digitsToNat (s.drop 1)⟩ :: ds, ?_⟩
    rw [seatDetailsOf, parseSeatDetail_ok s (hfmt s (List.mem_cons_self s t)), hds]

theorem getReservationDetails_eval (rid : Str) (log : List Reservation)
    (resv : Reservation) (schedules : List Schedule) (movies : List Movie)
    (sched : Schedule) (movie : Movie)
    (hridne : strFalsy (some rid) = false)
    (hlen : ¬ 30 < rid.length)
    (hfound : log.find? (fun rv => rv.reservation_id == rid) = some resv)
    (hsched : schedules.find? (fun s => s.schedule_id == resv.schedule_id) = some sched)
    (hmovie : movies.find? (fun m => m.movie_id == sched.movie_id) = some movie)
    (ds : List SeatDetail) (hds : seatDetailsOf resv.seat_ids = .ok ds) :
    getReservationDetails (.ok (some rid)) (.ok log) (.ok schedules) (.ok movies) =
      .ok resv sched movie (ds.insertionSort seatDetailLe) := by
  simp only [getReservationDetails, Option.getD_some, hridne, hlen, hfound, hsched,
    hmovie, hds, Bool.false_eq_true, if_false]

/-- C8 (counterexample): findability fails when the generated reservation id
collides with one already in the log: a successful booking of seat A1 commits
under id `RES20250101120000`, which an earlier record (for seat B2) already
carries; reading that id back returns the earlier record, whose `seat_ids`
differ from the seats just booked. -/
theorem get_reservation_details_collision_counterexample :
    (reserveSeats (.ok ⟨some (str "S1"), some (str "A1")⟩)
        (.ok [⟨str "S1", str "M1", str "2025-01-01", str "12:00", str "14:00", str "T1"⟩])
        (.ok [⟨str "M1", str "Movie", str "Drama"⟩])
        (.ok [⟨str "S1", [⟨str "A", [1]⟩], [⟨str "A", []⟩]⟩])
        (.ok [⟨str "RES20250101120000", str "S1", [str "B2"], str "i0", str "confirmed"⟩])
        true true (str "20250101120000") (str "i1")).resBlob =
      some [⟨str "RES20250101120000", str "S1", [str "B2"], str "i0", str "confirmed"⟩,
        ⟨str "RES20250101120000", str "S1", [str "A1"], str "i1", str "confirmed"⟩] ∧
    getReservationDetails (.ok (some (str "RES20250101120000")))
        (.ok [⟨str "RES20250101120000", str "S1", [str "B2"], str "i0", str "confirmed"⟩,
          ⟨str "RES20250101120000", str "S1", [str "A1"], str "i1", str "confirmed"⟩])
        (.ok [⟨str "S1", str "M1", str "2025-01-01", str "12:00", str "14:00", str "T1"⟩])
        (.ok [⟨str "M1", str "Movie", str "Drama"⟩]) =
      .ok ⟨str "RES20250101120000", str "S1", [str "B2"], str "i0", str "confirmed"⟩
        ⟨str "S1", str "M1", str "2025-01-01", str "12:00", str "14:00", str "T1"⟩
        ⟨str "M1", str "Movie", str "Drama"⟩
        [⟨str "B2", str "B", 2⟩] ∧
    [str "B2"] ≠ [str "A1"] := by
  refine ⟨by decide, by decide, by decide⟩

/-- C8 (amended): provided the generated reservation id is fresh (no record in
the existing log carries it) and within the 30-character lookup limit, a
successful `reserve_seats` call appends its reservation to the log and a
subsequent `get_reservation_details` on that id over the resulting log (and
the same catalogs) returns exactly that reservation — same `seat_ids`, same
`schedule_id`. -/
theorem reserve_then_get_reservation_details
    (sid sstr : Str) (schedules : List Schedule) (movies : List Movie)
    (seatData : List SeatInfo) (sched : Schedule) (movie : Movie) (idx : Nat)
    (si : SeatInfo) (existing : List Reservation) (ts iso : Str)
    (h : HappyReserveRequest sid sstr schedules movies seatData sched movie idx si)
    (havail : ∀ s ∈ parseSeatIds sstr, (availList si).contains s = true)
    (hfresh : ∀ rv ∈ existing, rv.reservation_id ≠ generateReservationId ts)
    (hlen : (generateReservationId ts).length ≤ 30) :
    reserveSeats (.ok ⟨some sid, some sstr⟩) (.ok schedules) (.ok movies)
        (.ok seatData) (.ok existing) true true ts iso =
      ⟨.ok ⟨generateReservationId ts, sid, parseSeatIds sstr, iso, str "confirmed"⟩
          sched movie (successMessage (parseSeatIds sstr)),
        some (seatData.set idx (applySeatMove si (parseSeatIds sstr))),
        some (existing ++
          [⟨generateReservationId ts, sid, parseSeatIds sstr, iso, str "confirmed"⟩])⟩ ∧
    ∃ ds, getReservationDetails (.ok (some (generateReservationId ts)))
        (.ok (existing ++
          [⟨generateReservationId ts, sid, parseSeatIds sstr, iso, str "confirmed"⟩]))
        (.ok schedules) (.ok movies) =
      .ok ⟨generateReservationId ts, sid, parseSeatIds sstr, iso, str "confirmed"⟩
        sched movie ds := by
  have hfind : (parseSeatIds sstr).find? (fun s => !((availList si).contains s)) = none := by
    rw [List.find?_eq_none]
    intro x hx
    rw [havail x hx]
    decide
  have hfmt : ∀ s ∈ parseSeatIds sstr, validateSeatIdFormat s = true := by
    intro s hs
    have hns := List.find?_eq_none.mp h.seats_fmt s hs
    simpa using hns
  constructor
  · exact reserveSeats_eval_success sid sstr schedules movies seatData sched movie idx si
      (.ok existing) ts iso h hfind
  · rcases seatDetailsOf_ok (parseSeatIds sstr) hfmt with ⟨ds, hds⟩
    refine ⟨ds.insertionSort seatDetailLe, ?_⟩
    exact getReservationDetails_eval (generateReservationId ts) _
      ⟨generateReservationId ts, sid, parseSeatIds sstr, iso, str "confirmed"⟩
      schedules movies sched movie rfl (by omega)
      (find?_resv_append
        ⟨generateReservationId ts, sid, parseSeatIds sstr, iso, str "confirmed"⟩
        (generateReservationId ts) rfl existing hfresh) h.sched_found h.movie_found ds hds

/-- C8 (witness): the amended findability theorem applied to a concrete
booking over an empty log. -/
theorem reserve_then_get_reservation_details_witness :
    HappyReserveRequest (str "S1") (str "A1")
      [⟨str "S1", str "M1", str "2025-01-01", str "12:00", str "14:00", str "T1"⟩]
      [⟨str "M1", str "Movie", str "Drama"⟩]
      [⟨str "S1", [⟨str "A", [1, 2]⟩], [⟨str "A", []⟩]⟩]
      ⟨str "S1", str "M1", str "2025-01-01", str "12:00", str "14:00", str "T1"⟩
      ⟨str "M1", str "Movie", str "Drama"⟩ 0
      ⟨str "S1", [⟨str "A", [1, 2]⟩], [⟨str "A", []⟩]⟩ ∧
    (generateReservationId (str "20250101120000")).length ≤ 30 ∧
    ∃ ds, getReservationDetails (.ok (some (generateReservationId (str "20250101120000"))))
        (.ok ([] ++ [⟨generateReservationId (str "20250101120000"), str "S1",
          parseSeatIds (str "A1"), str "i1", str "confirmed"⟩]))
        (.ok [⟨str "S1", str "M1", str "2025-01-01", str "12:00", str "14:00", str "T1"⟩])
        (.ok [⟨str "M1", str "Movie", str "Drama"⟩]) =
      .ok ⟨generateReservationId (str "20250101120000"), str "S1",
          parseSeatIds (str "A1"), str "i1", str "confirmed"⟩
        ⟨str "S1", str "M1", str "2025-01-01", str "12:00", str "14:00", str "T1"⟩
        ⟨str "M1", str "Movie", str "Drama"⟩ ds := by
  have h : HappyReserveRequest (str "S1") (str "A1")
      [⟨str "S1", str "M1", str "2025-01-01", str "12:00", str "14:00", str "T1"⟩]
      [⟨str "M1", str "Movie", str "Drama"⟩]
      [⟨str "S1", [⟨str "A", [1, 2]⟩], [⟨str "A", []⟩]⟩]
      ⟨str "S1", str "M1", str "2025-01-01", str "12:00", str "14:00", str "T1"⟩
      ⟨str "M1", str "Movie", str "Drama"⟩ 0
      ⟨str "S1", [⟨str "A", [1, 2]⟩], [⟨str "A", []⟩]⟩ :=
    ⟨by decide, by decide, by decide, by decide, by decide, by decide, by decide,
      by decide, by decide⟩
  refine ⟨h, by decide, ?_⟩
  exact (reserve_then_get_reservation_details (str "S1") (str "A1") _ _ _ _ _ 0 _ []
    (str "20250101120000") (str "i1") h (by decide) (by decide) (by decide)).2
